import Mathlib

/-!
Shallow embedding of jcbwlkr/cqlstore (src/cqlstore.go), a Cassandra-backed
implementation of the gorilla/sessions Store interface, together with proofs
about the claims of its specification.

Go pointers to `sessions.Options` are modelled as indices into an explicit
heap of options cells, because the source manipulates them through pointers
(`st.Options`, `s.Options = &(*st.Options)`).  External collaborators
(securecookie codecs, the gocql driver, the system clock feeding the UUID
generator) are modelled as an environment of injected functions and failure
flags; the backing table is modelled as an association list of records.
-/

namespace Cqlstore

/-- Embeds `sessions.Options` from gorilla/sessions: the per-session cookie
options struct (Path, Domain, MaxAge, Secure, HttpOnly). -/
structure OptionsV where
  path : String
  domain : String
  maxAge : Int
  secure : Bool
  httpOnly : Bool
deriving DecidableEq, Repr

/-- Zero value of `sessions.Options`, used as the default when reading an
unallocated heap cell. -/
def zeroOptions : OptionsV :=
  { path := "", domain := "", maxAge := 0, secure := false, httpOnly := false }

/-- Heap of `sessions.Options` cells; a Go pointer `*sessions.Options` is an
index into this list. -/
abbrev Heap := List OptionsV

/-- Dereference an options pointer. -/
def heapGet (h : Heap) (a : Nat) : OptionsV := h.getD a zeroOptions

/-- Write through an options pointer (models a Go assignment such as
`sess.Options.MaxAge = 900`). -/
def heapSet (h : Heap) (a : Nat) (v : OptionsV) : Heap := h.set a v

/-- Embeds the struct `CQLStore`.  The prepared queries `saveQ`, `deleteQ`
and `loadQ` are all bound to the one table chosen at construction, so the
store keeps the table name; the codecs live in the environment below. -/
structure CQLStore where
  optionsAddr : Nat
  table : String
deriving DecidableEq, Repr

/-- Embeds `sessions.Session` from gorilla/sessions, with the fields the
source reads and writes: name, ID, Values, Options (a pointer, hence an
address) and IsNew.  Values is `map[interface{}]interface{}` in Go; only
emptiness and wholesale replacement matter here, so it is an association
list. -/
structure Session where
  name : String
  id : String
  values : List (String × String)
  optionsAddr : Nat
  isNew : Bool
deriving DecidableEq, Repr

/-- A row of the sessions table: columns `id` and `data`, plus the TTL the
row was written with (`USING TTL ?`). -/
structure Record where
  id : String
  data : String
  ttl : Int
deriving DecidableEq, Repr

/-- The backing table, keyed by the `id` column. -/
abbrev Db := List Record

/-- SELECT "data" FROM table WHERE "id" = ? — row lookup by primary key. -/
def dbLookup (db : Db) (i : String) : Option Record :=
  db.find? (fun r => r.id == i)

/-- INSERT INTO table ("id", "data") VALUES(?, ?) USING TTL ? — Cassandra
INSERT is an upsert: the new row replaces any row with the same id. -/
def dbUpsert (db : Db) (i d : String) (t : Int) : Db :=
  ⟨i, d, t⟩ :: db.filter (fun r => r.id != i)

/-- DELETE FROM table WHERE "id" = ? — idempotent removal by primary key. -/
def dbDelete (db : Db) (i : String) : Db :=
  db.filter (fun r => r.id != i)

/-- The error values the package returns: `errors.New(...)` (plain), and the
wrapper structs `createError`, `saveError`, `loadError`, each carrying the
underlying error's message. -/
inductive GoError where
  | plain (msg : String)
  | createErr (inner : String)
  | saveErr (inner : String)
  | loadErr (inner : String)
deriving DecidableEq, Repr

/-- Discriminates the `createError` wrapper among construction results. -/
def isCreateError (r : Except GoError CQLStore) : Bool :=
  match r with
  | .error (.createErr _) => true
  | _ => false

/-- Environment of external collaborators: the securecookie codec calls made
by the store (each a pure function of its inputs here, with failure as
`Except`), injected failures of the three prepared gocql queries, and the
value `gocql.UUIDFromTime(time.Now()).String()` would mint. -/
structure Env where
  encodeValues : String → List (String × String) → Except String String
  encodeId : String → String → Except String String
  decodeId : String → String → Except String String
  decodeValues : String → String → Except String (List (String × String))
  insertFail : Option String
  deleteFail : Option String
  scanFail : Option String
  mintId : String

/-- Embeds `http.Request` as far as the store reads it: its cookies, as
name/value pairs. -/
structure Request where
  cookies : List (String × String)
deriving DecidableEq, Repr

/-- Embeds `(*http.Request).Cookie(name)`: the first cookie with the given
name, or an error (here `none`) when absent. -/
def Request.cookie (r : Request) (name : String) : Option String :=
  (r.cookies.find? (fun c => c.1 == name)).map (fun c => c.2)

/-- Expires attribute computed by `sessions.NewCookie`: unset when MaxAge is
zero, now+MaxAge seconds when positive, the Unix epoch when negative. -/
inductive CookieExpiry where
  | unset
  | fromNow (seconds : Int)
  | epoch
deriving DecidableEq, Repr

/-- Embeds `http.Cookie` as produced by `sessions.NewCookie`. -/
structure Cookie where
  name : String
  value : String
  path : String
  domain : String
  maxAge : Int
  secure : Bool
  httpOnly : Bool
  expiry : CookieExpiry
deriving DecidableEq, Repr

/-- Embeds `sessions.NewCookie(name, value, options)` from gorilla/sessions:
copies the attributes from the options and derives Expires from MaxAge. -/
def newCookie (name value : String) (o : OptionsV) : Cookie :=
  { name := name, value := value, path := o.path, domain := o.domain,
    maxAge := o.maxAge, secure := o.secure, httpOnly := o.httpOnly,
    expiry :=
      if o.maxAge > 0 then .fromNow o.maxAge
      else if o.maxAge < 0 then .epoch
      else .unset }

/-- Character class of the table-name regexp `^[a-zA-Z0-9_]+$`. -/
def validTableChar (c : Char) : Bool :=
  c.isUpper || c.isLower || c.isDigit || c == '_'

/-- `regexp.MustCompile("^[a-zA-Z0-9_]+$").MatchString(table)`: the anchored
pattern matches exactly the nonempty strings of letters, digits and
underscores (stated over the string's character list). -/
def validTable (t : String) : Bool :=
  (!t.data.isEmpty) && t.data.all validTableChar

/-- The CQL text of the schema query issued by the constructor (whitespace
collapsed). -/
def createTableQuery (table : String) : String :=
  "CREATE TABLE IF NOT EXISTS \"" ++ table ++
    "\" ( id uuid, data text, PRIMARY KEY (id) )"

/-- Result of the package-level constructor `New`: the queries it executed
against the cluster, the returned store or error, and the heap extended with
the freshly allocated default options cell. -/
structure NewStoreOut where
  queries : List String
  result : Except GoError CQLStore
  heap : Heap

/-- Embeds the package-level `New(cs, table, keypairs...)`.  `createFail`
injects a failure of `cs.Query(create, table).Exec()`.  On the invalid-table
branch the source returns `errors.New("Invalid table name " + table)` — a
plain error, not a `createError` — before any query is issued.  On success
it allocates the default options (Path "/", MaxAge 86400*30) and prepares
the three queries against `table`. -/
def newStore (createFail : Option String) (table : String) (h : Heap) : NewStoreOut :=
  if !(validTable table) then
    { queries := [], result := .error (.plain ("Invalid table name " ++ table)), heap := h }
  else
    match createFail with
    | some e => { queries := [createTableQuery table], result := .error (.createErr e), heap := h }
    | none =>
      { queries := [createTableQuery table],
        result := .ok { optionsAddr := h.length, table := table },
        heap := h ++ [{ path := "/", domain := "", maxAge := 86400 * 30,
                        secure := false, httpOnly := false }] }

/-- The session built at the top of `CQLStore.New`:
`sessions.NewSession(st, name)` (empty ID, empty Values) followed by
`s.Options = &(*st.Options)` and `s.IsNew = true`.  In Go `&(*p)` is `p`
itself — pointer indirection denotes the pointed-to variable and `&` takes
that variable's address — so the session's options pointer is the store's
options pointer, not a copy of the cell. -/
def freshSession (st : CQLStore) (name : String) : Session :=
  { name := name, id := "", values := [], optionsAddr := st.optionsAddr, isNew := true }

/-- Embeds `st.loadQ.Bind(id).Scan(&encData)`: a gocql Scan either fails
(driver error, injected via `scanFail`), returns the row's data, or fails
with not-found when no row matches. -/
def dbScan (env : Env) (db : Db) (i : String) : Except String String :=
  match env.scanFail with
  | some e => .error e
  | none =>
    match dbLookup db i with
    | some r => .ok r.data
    | none => .error "not found"

/-- Embeds `CQLStore.New(r, name)`: build the fresh is-new session; return
it at once when the request has no such cookie; otherwise decode the cookie
value into `s.ID`, fetch the row, decode its data into `s.Values`, wrapping
any failure in `loadError` and returning the session built so far; on full
success clear IsNew. -/
def sessionNew (env : Env) (db : Db) (st : CQLStore) (r : Request) (name : String) :
    Session × Option GoError :=
  let s := freshSession st name
  match r.cookie name with
  | none => (s, none)
  | some cv =>
    match env.decodeId name cv with
    | .error e => (s, some (.loadErr e))
    | .ok i =>
      let s := { s with id := i }
      match dbScan env db i with
      | .error e => (s, some (.loadErr e))
      | .ok encData =>
        match env.decodeValues s.name encData with
        | .error e => (s, some (.loadErr e))
        | .ok vals => ({ s with values := vals, isNew := false }, none)

/-- Embeds `CQLStore.Get(r, name)` for a request whose registry does not yet
hold a session of this name: `sessions.GetRegistry(r).Get(st, name)` then
calls `st.New(r, name)` and caches the result. -/
def sessionGet (env : Env) (db : Db) (st : CQLStore) (r : Request) (name : String) :
    Session × Option GoError :=
  sessionNew env db st r name

/-- Result of `CQLStore.Save`: the table and response cookies afterwards,
the session (whose ID Save may have minted in place), and the returned
error, if any. -/
structure SaveOut where
  db : Db
  resp : List Cookie
  sess : Session
  err : Option GoError
deriving Repr

/-- Embeds the ID-minting block at the top of Save's persistence path:
`if s.ID == "" { s.ID = gocql.UUIDFromTime(time.Now()).String() }`. -/
def mintedSession (env : Env) (s : Session) : Session :=
  if s.id == "" then { s with id := env.mintId } else s

/-- Embeds `CQLStore.Save(r, w, s)`.  When `s.Options.MaxAge < 0`: delete
the row for `s.ID` (failure → `saveError`), set the clearing cookie
`sessions.NewCookie(s.Name(), "", s.Options)`, done.  Otherwise mint an ID
if `s.ID` is empty, encode the values (failure → `saveError`), execute the
insert — note the TTL bound is `st.Options.MaxAge`, read through the
STORE's options pointer — (failure → `saveError`), encode the ID (failure →
`saveError`, with the row already written), and set the session cookie. -/
def save (env : Env) (h : Heap) (st : CQLStore) (s : Session) (db : Db)
    (resp : List Cookie) : SaveOut :=
  if (heapGet h s.optionsAddr).maxAge < 0 then
    match env.deleteFail with
    | some e => { db := db, resp := resp, sess := s, err := some (.saveErr e) }
    | none =>
      { db := dbDelete db s.id,
        resp := resp ++ [newCookie s.name "" (heapGet h s.optionsAddr)],
        sess := s, err := none }
  else
    match env.encodeValues (mintedSession env s).name (mintedSession env s).values with
    | .error e => { db := db, resp := resp, sess := mintedSession env s, err := some (.saveErr e) }
    | .ok encData =>
      match env.insertFail with
      | some e => { db := db, resp := resp, sess := mintedSession env s, err := some (.saveErr e) }
      | none =>
        match env.encodeId (mintedSession env s).name (mintedSession env s).id with
        | .error e =>
          { db := dbUpsert db (mintedSession env s).id encData (heapGet h st.optionsAddr).maxAge,
            resp := resp, sess := mintedSession env s, err := some (.saveErr e) }
        | .ok encId =>
          { db := dbUpsert db (mintedSession env s).id encData (heapGet h st.optionsAddr).maxAge,
            resp := resp ++
              [newCookie (mintedSession env s).name encId
                (heapGet h (mintedSession env s).optionsAddr)],
            sess := mintedSession env s, err := none }

/-! Concrete fixtures used by witnesses and counterexamples. -/

/-- Environment in which every codec call and every query succeeds. -/
def okEnv : Env :=
  { encodeValues := fun _ _ => .ok "enc"
    encodeId := fun _ _ => .ok "encid"
    decodeId := fun _ _ => .ok "abc"
    decodeValues := fun _ _ => .ok [("foo", "Foo")]
    insertFail := none
    deleteFail := none
    scanFail := none
    mintId := "uuid-1" }

/-- A store whose options cell is at address 0, over table "sessions". -/
def store0 : CQLStore := { optionsAddr := 0, table := "sessions" }

/-- One-cell heap holding the store's options with MaxAge 1800 (the setup
of the repository's test TestSettingOptionsOnOneDoesNotSetForAll). -/
def heap1800 : Heap :=
  [{ path := "/", domain := "", maxAge := 1800, secure := false, httpOnly := false }]

/-- Request carrying no cookies. -/
def emptyReq : Request := { cookies := [] }

/-- Request carrying a session cookie named "test-sess". -/
def cookieReq : Request := { cookies := [("test-sess", "cookieval")] }

/-- Two-cell heap: the store's options (MaxAge 10) at address 0 and a
caller-supplied replacement options struct (MaxAge 5) at address 1. -/
def heapSplit : Heap :=
  [{ path := "/", domain := "", maxAge := 10, secure := false, httpOnly := false },
   { path := "/", domain := "", maxAge := 5, secure := false, httpOnly := false }]

/-- A session whose caller replaced `s.Options` with its own struct (cell 1),
as gorilla callers do to configure a single session. -/
def sessReplaced : Session :=
  { name := "test-sess", id := "sid", values := [], optionsAddr := 1, isNew := false }

/-- One-cell heap whose options carry MaxAge 0. -/
def heapZero : Heap :=
  [{ path := "", domain := "", maxAge := 0, secure := false, httpOnly := false }]

/-- One-cell heap whose options carry MaxAge -1 (deletion request). -/
def heapNeg : Heap :=
  [{ path := "", domain := "", maxAge := -1, secure := false, httpOnly := false }]

/-- A session with identifier "sid" sharing the store's options cell 0. -/
def sessSid : Session :=
  { name := "test-sess", id := "sid", values := [], optionsAddr := 0, isNew := false }

/-- A session with an empty identifier sharing the store's options cell 0. -/
def sessNoId : Session :=
  { name := "test-sess", id := "", values := [], optionsAddr := 0, isNew := true }

/-- A table already holding a row for "sid". -/
def dbSid : Db := [⟨"sid", "old", 99⟩]

/-! Helper lemmas about the table model and the minting step. -/

theorem dbLookup_dbUpsert (db : Db) (i d : String) (t : Int) :
    dbLookup (dbUpsert db i d t) i = some ⟨i, d, t⟩ := by
  simp [dbLookup, dbUpsert]

theorem dbLookup_dbDelete (db : Db) (i : String) :
    dbLookup (dbDelete db i) i = none := by
  rw [dbLookup, List.find?_eq_none]
  intro r hr
  rw [dbDelete, List.mem_filter] at hr
  simpa using hr.2

theorem mintedSession_name (env : Env) (s : Session) :
    (mintedSession env s).name = s.name := by
  unfold mintedSession; split <;> rfl

theorem mintedSession_values (env : Env) (s : Session) :
    (mintedSession env s).values = s.values := by
  unfold mintedSession; split <;> rfl

theorem mintedSession_optionsAddr (env : Env) (s : Session) :
    (mintedSession env s).optionsAddr = s.optionsAddr := by
  unfold mintedSession; split <;> rfl

theorem mintedSession_of_ne (env : Env) (s : Session) (hid : s.id ≠ "") :
    mintedSession env s = s := by
  unfold mintedSession
  rw [if_neg]
  simpa using hid

theorem mintedSession_id_of_empty (env : Env) (s : Session) (hid : s.id = "") :
    (mintedSession env s).id = env.mintId := by
  unfold mintedSession
  rw [if_pos]
  simpa using hid

/-! Claim theorems. -/

/-- Claim C2 (code bug): the claim says the options of a session returned by
New are a copy of the store's defaults, mutable independently.  The source's
`s.Options = &(*st.Options)` shares the pointer instead — in Go `&(*p)` is
`p` — so every session's options pointer equals the store's, and writing
MaxAge 900 through the session's pointer (the scenario of the repository's
test TestSettingOptionsOnOneDoesNotSetForAll, which asserts the store still
reads 1800) makes the store read 900. -/
theorem sessionNew_shares_options_pointer :
    (∀ env db st r n, ((sessionNew env db st r n).1).optionsAddr = st.optionsAddr) ∧
    ((sessionNew okEnv [] store0 emptyReq "test-sess").1).optionsAddr = store0.optionsAddr ∧
    (heapGet heap1800 store0.optionsAddr).maxAge = 1800 ∧
    (heapGet
        (heapSet heap1800 ((sessionNew okEnv [] store0 emptyReq "test-sess").1).optionsAddr
          { heapGet heap1800 ((sessionNew okEnv [] store0 emptyReq "test-sess").1).optionsAddr with
              maxAge := 900 })
        store0.optionsAddr).maxAge = 900 := by
  refine ⟨?_, rfl, rfl, rfl⟩
  intro env db st r n
  unfold sessionNew
  dsimp only
  split
  · rfl
  · split
    · rfl
    · split
      · rfl
      · split
        · rfl
        · rfl

/-- Claim C8: when the request has no cookie of the requested name, New
returns the fresh session — is-new true, empty values, empty identifier —
with no error. -/
theorem sessionNew_no_cookie (env : Env) (db : Db) (st : CQLStore) (r : Request)
    (n : String) (hc : r.cookie n = none) :
    sessionNew env db st r n = (freshSession st n, none) ∧
    (freshSession st n).isNew = true ∧ (freshSession st n).values = [] ∧
    (freshSession st n).id = "" := by
  unfold sessionNew
  rw [hc]
  exact ⟨rfl, rfl, rfl, rfl⟩

/-- Witness for C8 at a concrete cookie-free request. -/
theorem sessionNew_no_cookie_witness :
    sessionNew okEnv [] store0 emptyReq "test-sess" = (freshSession store0 "test-sess", none) ∧
    (freshSession store0 "test-sess").isNew = true ∧
    (freshSession store0 "test-sess").values = [] ∧
    (freshSession store0 "test-sess").id = "" :=
  sessionNew_no_cookie okEnv [] store0 emptyReq "test-sess" rfl

/-- Claim C10: on the deletion path (MaxAge negative), a failing delete makes
Save return a saveError wrapping the cause, with the table and the response's
cookies left exactly as they were. -/
theorem save_delete_failure (env : Env) (h : Heap) (st : CQLStore) (s : Session)
    (db : Db) (resp : List Cookie) (e : String)
    (hma : (heapGet h s.optionsAddr).maxAge < 0) (hdel : env.deleteFail = some e) :
    save env h st s db resp =
      { db := db, resp := resp, sess := s, err := some (.saveErr e) } := by
  unfold save
  rw [if_pos hma, hdel]

/-- Witness for C10: a concrete failing delete under MaxAge -1. -/
theorem save_delete_failure_witness :
    save { okEnv with deleteFail := some "boom" } heapNeg store0 sessSid dbSid [] =
      { db := dbSid, resp := [], sess := sessSid, err := some (.saveErr "boom") } :=
  save_delete_failure { okEnv with deleteFail := some "boom" } heapNeg store0 sessSid dbSid
    [] "boom" (by decide) rfl

/-- Claim C9: the session identifier is immutable once assigned — Save keeps
a non-empty identifier unchanged on every path, and mints the generator's
fresh identifier only when the identifier is empty (on the persistence
path). -/
theorem save_id_immutable (h : Heap) (st : CQLStore) (db : Db) (resp : List Cookie) :
    (∀ env s, s.id ≠ "" → ((save env h st s db resp).sess).id = s.id) ∧
    (∀ env s, s.id = "" → ¬ (heapGet h s.optionsAddr).maxAge < 0 →
       ((save env h st s db resp).sess).id = env.mintId) := by
  constructor
  · intro env s hid
    unfold save
    split
    · split <;> rfl
    · rw [show mintedSession env s = s from mintedSession_of_ne env s hid]
      split
      · rfl
      · split
        · rfl
        · split <;> rfl
  · intro env s hid hma
    unfold save
    rw [if_neg hma]
    have hmint : (mintedSession env s).id = env.mintId := mintedSession_id_of_empty env s hid
    split
    · exact hmint
    · split
      · exact hmint
      · split <;> exact hmint

/-- Selects the table-and-identifier part of a Save outcome; all branches of
the persistence path upsert with the minted session's id. -/
theorem save_db_on_persist (env : Env) (h : Heap) (st : CQLStore) (s : Session)
    (db : Db) (resp : List Cookie) (enc : String)
    (hma : ¬ (heapGet h s.optionsAddr).maxAge < 0)
    (henc : env.encodeValues s.name s.values = .ok enc)
    (hins : env.insertFail = none) :
    (save env h st s db resp).db =
      dbUpsert db (mintedSession env s).id enc (heapGet h st.optionsAddr).maxAge ∧
    (save env h st s db resp).sess = mintedSession env s := by
  unfold save
  rw [if_neg hma, mintedSession_name, mintedSession_values, henc, hins]
  dsimp only
  split <;> exact ⟨rfl, rfl⟩

/-- Witness for C9: Save keeps the identifier "sid", and mints "uuid-1" for
an empty identifier. -/
theorem save_id_immutable_witness :
    ((save okEnv heapZero store0 sessSid [] []).sess).id = sessSid.id ∧
    ((save okEnv heapZero store0 sessNoId [] []).sess).id = okEnv.mintId :=
  ⟨(save_id_immutable heapZero store0 [] []).1 okEnv sessSid (by decide),
   (save_id_immutable heapZero store0 [] []).2 okEnv sessNoId rfl (by decide)⟩

/-- Counterexample for C6: constructing a store over the table name
"bad;name" fails before any query is issued, but with the plain error
`errors.New("Invalid table name ...")`, not the createError wrapper the
claim requires. -/
theorem newStore_invalid_table_not_createError :
    (newStore none "bad;name" []).queries = [] ∧
    (newStore none "bad;name" []).result = .error (.plain "Invalid table name bad;name") ∧
    isCreateError (newStore none "bad;name" []).result = false := by
  refine ⟨?_, ?_, ?_⟩ <;> rfl

/-- Claim C6 as amended: for every table name rejected by the allow-list
pattern [A-Za-z0-9_]+, construction fails with the plain invalid-table-name
error — not the createError wrapper — and issues no query against the
backing store. -/
theorem newStore_invalid_table (cf : Option String) (table : String) (h : Heap)
    (hv : validTable table = false) :
    newStore cf table h =
      { queries := [], result := .error (.plain ("Invalid table name " ++ table)),
        heap := h } ∧
    isCreateError (newStore cf table h).result = false := by
  unfold newStore
  rw [hv]
  exact ⟨rfl, rfl⟩

/-- Witness for C6's amended theorem at the table name "bad;name". -/
theorem newStore_invalid_table_witness :
    (newStore none "bad;name" [] =
      { queries := [], result := .error (.plain ("Invalid table name " ++ "bad;name")),
        heap := [] }) ∧
    isCreateError (newStore none "bad;name" []).result = false :=
  newStore_invalid_table none "bad;name" [] (by decide)

/-- Counterexample for C1: a session whose caller replaced its options
struct (MaxAge 5) while the store's options carry MaxAge 10.  The row Save
upserts carries TTL 10 — the STORE's MaxAge, bound by
`st.saveQ.Bind(s.ID, encData, st.Options.MaxAge)` — not the session's 5. -/
theorem save_ttl_not_session_maxage :
    ((dbLookup (save okEnv heapSplit store0 sessReplaced [] []).db "sid").map Record.ttl) =
      some 10 ∧
    (heapGet heapSplit sessReplaced.optionsAddr).maxAge = 5 ∧
    (10 : Int) ≠ 5 := by
  refine ⟨?_, ?_, ?_⟩ <;> first | rfl | decide

/-- Claim C1 as amended: on the persistence path, the record Save upserts
carries TTL equal to the STORE's Options.MaxAge at write time (which agrees
with the session's own MaxAge exactly while the session still shares the
store's options pointer, as New hands it out — but not once the caller
installs its own options struct). -/
theorem save_ttl_is_store_maxage (env : Env) (h : Heap) (st : CQLStore) (s : Session)
    (db : Db) (resp : List Cookie) (enc : String)
    (hma : ¬ (heapGet h s.optionsAddr).maxAge < 0)
    (henc : env.encodeValues s.name s.values = .ok enc)
    (hins : env.insertFail = none) :
    dbLookup (save env h st s db resp).db ((save env h st s db resp).sess).id =
      some ⟨((save env h st s db resp).sess).id, enc, (heapGet h st.optionsAddr).maxAge⟩ := by
  obtain ⟨hdb, hsess⟩ := save_db_on_persist env h st s db resp enc hma henc hins
  rw [hdb, hsess]
  exact dbLookup_dbUpsert db (mintedSession env s).id enc (heapGet h st.optionsAddr).maxAge

/-- Witness for C1's amended theorem: with the store's MaxAge 10 the row is
written with TTL 10. -/
theorem save_ttl_is_store_maxage_witness :
    dbLookup (save okEnv heapSplit store0 sessReplaced [] []).db
        ((save okEnv heapSplit store0 sessReplaced [] []).sess).id =
      some ⟨((save okEnv heapSplit store0 sessReplaced [] []).sess).id, "enc",
        (heapGet heapSplit store0.optionsAddr).maxAge⟩ :=
  save_ttl_is_store_maxage okEnv heapSplit store0 sessReplaced [] [] "enc"
    (by decide) rfl rfl

/-- Environment in which the insert query fails. -/
def envInsertFail : Env := { okEnv with insertFail := some "boom" }

/-- Environment in which encoding the session ID fails. -/
def envIdFail : Env := { okEnv with encodeId := fun _ _ => .error "idfail" }

/-- Environment in which decoding the cookie value fails. -/
def envDecodeFail : Env := { okEnv with decodeId := fun _ _ => .error "bad mac" }

/-- Environment in which the row fetch (Scan) fails. -/
def envScanFail : Env := { okEnv with scanFail := some "db down" }

/-- Counterexample for C3: with `session.Options.MaxAge = 0` Save does NOT
take the deletion path — the guard is `MaxAge < 0`, strictly — so it upserts
a row for "sid" (still present afterwards), writes a cookie carrying the
encoded identifier rather than an empty clearing value, and succeeds. -/
theorem save_zero_maxage_not_deletion :
    dbLookup (save okEnv heapZero store0 sessSid dbSid []).db "sid" = some ⟨"sid", "enc", 0⟩ ∧
    (save okEnv heapZero store0 sessSid dbSid []).resp.map Cookie.value = ["encid"] ∧
    ("encid" : String) ≠ "" ∧
    (save okEnv heapZero store0 sessSid dbSid []).err = none := by
  refine ⟨?_, ?_, ?_, ?_⟩ <;> first | rfl | decide

/-- Claim C3 as amended: for every session with `session.Options.MaxAge < 0`
(strictly negative), Save takes the deletion path: it deletes the record for
the session's ID (idempotently — a subsequent lookup finds nothing), appends
a clearing cookie (empty value, negative Max-Age) to the response, performs
no upsert, and returns success. -/
theorem save_deletion_path (env : Env) (h : Heap) (st : CQLStore) (s : Session)
    (db : Db) (resp : List Cookie)
    (hma : (heapGet h s.optionsAddr).maxAge < 0) (hdel : env.deleteFail = none) :
    save env h st s db resp =
      { db := dbDelete db s.id,
        resp := resp ++ [newCookie s.name "" (heapGet h s.optionsAddr)],
        sess := s, err := none } ∧
    dbLookup (save env h st s db resp).db s.id = none ∧
    (newCookie s.name "" (heapGet h s.optionsAddr)).value = "" ∧
    (newCookie s.name "" (heapGet h s.optionsAddr)).maxAge < 0 := by
  have h1 : save env h st s db resp =
      { db := dbDelete db s.id,
        resp := resp ++ [newCookie s.name "" (heapGet h s.optionsAddr)],
        sess := s, err := none } := by
    unfold save
    rw [if_pos hma, hdel]
  refine ⟨h1, ?_, rfl, ?_⟩
  · rw [h1]
    exact dbLookup_dbDelete db s.id
  · exact hma

/-- Witness for C3's amended theorem: deleting session "sid" under
MaxAge -1. -/
theorem save_deletion_path_witness :
    (save okEnv heapNeg store0 sessSid dbSid [] =
      { db := dbDelete dbSid sessSid.id,
        resp := [] ++ [newCookie sessSid.name "" (heapGet heapNeg sessSid.optionsAddr)],
        sess := sessSid, err := none }) ∧
    dbLookup (save okEnv heapNeg store0 sessSid dbSid []).db sessSid.id = none ∧
    (newCookie sessSid.name "" (heapGet heapNeg sessSid.optionsAddr)).value = "" ∧
    (newCookie sessSid.name "" (heapGet heapNeg sessSid.optionsAddr)).maxAge < 0 :=
  save_deletion_path okEnv heapNeg store0 sessSid dbSid [] (by decide) rfl

/-- Claim C4: Save never partially persists on the cookie side.  If the
insert fails, Save returns a saveError with the table and response cookies
untouched; if the insert succeeds but the identifier encoding fails, the row
remains stored, a saveError is returned, and no cookie is appended. -/
theorem save_failure_writes_no_cookie (h : Heap) (st : CQLStore) (s : Session)
    (db : Db) (resp : List Cookie) :
    (∀ env enc e, ¬ (heapGet h s.optionsAddr).maxAge < 0 →
       env.encodeValues s.name s.values = .ok enc → env.insertFail = some e →
       save env h st s db resp =
         { db := db, resp := resp, sess := mintedSession env s,
           err := some (.saveErr e) }) ∧
    (∀ env enc e, ¬ (heapGet h s.optionsAddr).maxAge < 0 →
       env.encodeValues s.name s.values = .ok enc → env.insertFail = none →
       env.encodeId s.name (mintedSession env s).id = .error e →
       save env h st s db resp =
         { db := dbUpsert db (mintedSession env s).id enc (heapGet h st.optionsAddr).maxAge,
           resp := resp, sess := mintedSession env s, err := some (.saveErr e) } ∧
       dbLookup (save env h st s db resp).db ((save env h st s db resp).sess).id =
         some ⟨(mintedSession env s).id, enc, (heapGet h st.optionsAddr).maxAge⟩) := by
  constructor
  · intro env enc e hma henc hins
    unfold save
    rw [if_neg hma, mintedSession_name, mintedSession_values, henc]
    dsimp only
    rw [hins]
  · intro env enc e hma henc hins hencid
    have h1 : save env h st s db resp =
        { db := dbUpsert db (mintedSession env s).id enc (heapGet h st.optionsAddr).maxAge,
          resp := resp, sess := mintedSession env s, err := some (.saveErr e) } := by
      unfold save
      rw [if_neg hma, mintedSession_name, mintedSession_values, henc]
      dsimp only
      rw [hins]
      dsimp only
      rw [hencid]
    refine ⟨h1, ?_⟩
    rw [h1]
    exact dbLookup_dbUpsert db (mintedSession env s).id enc (heapGet h st.optionsAddr).maxAge

/-- Witness for C4: a concrete failing insert, and a concrete failing
identifier encoding after a successful insert. -/
theorem save_failure_writes_no_cookie_witness :
    (save envInsertFail heapZero store0 sessSid [] [] =
      { db := [], resp := [], sess := mintedSession envInsertFail sessSid,
        err := some (.saveErr "boom") }) ∧
    ((save envIdFail heapZero store0 sessSid [] [] =
      { db := dbUpsert [] (mintedSession envIdFail sessSid).id "enc"
          (heapGet heapZero store0.optionsAddr).maxAge,
        resp := [], sess := mintedSession envIdFail sessSid,
        err := some (.saveErr "idfail") }) ∧
     dbLookup (save envIdFail heapZero store0 sessSid [] []).db
         ((save envIdFail heapZero store0 sessSid [] []).sess).id =
       some ⟨(mintedSession envIdFail sessSid).id, "enc",
         (heapGet heapZero store0.optionsAddr).maxAge⟩) :=
  ⟨(save_failure_writes_no_cookie heapZero store0 sessSid [] []).1 envInsertFail "enc"
     "boom" (by decide) rfl rfl,
   (save_failure_writes_no_cookie heapZero store0 sessSid [] []).2 envIdFail "enc"
     "idfail" (by decide) rfl rfl rfl⟩

/-- Claim C5: whenever New returns an error, that error is a loadError, and
the session handed back alongside it is still fresh — is-new true with an
empty value mapping — so a caller that ignores the error gets a safe, empty
session. -/
theorem sessionNew_failure_is_safe (env : Env) (db : Db) (st : CQLStore) (r : Request)
    (n : String) :
    ∀ er, (sessionNew env db st r n).2 = some er →
      (∃ m, er = GoError.loadErr m) ∧
      ((sessionNew env db st r n).1).isNew = true ∧
      ((sessionNew env db st r n).1).values = [] := by
  unfold sessionNew
  dsimp only
  split
  · intro er hw
    exact absurd hw (by simp)
  · split
    · intro er hw
      injection hw with hw
      subst hw
      exact ⟨⟨_, rfl⟩, rfl, rfl⟩
    · split
      · intro er hw
        injection hw with hw
        subst hw
        exact ⟨⟨_, rfl⟩, rfl, rfl⟩
      · split
        · intro er hw
          injection hw with hw
          subst hw
          exact ⟨⟨_, rfl⟩, rfl, rfl⟩
        · intro er hw
          exact absurd hw (by simp)

/-- Witness for C5: a cryptographically invalid cookie value yields a
loadError together with a fresh, empty session. -/
theorem sessionNew_failure_is_safe_witness :
    (∃ m, GoError.loadErr "bad mac" = GoError.loadErr m) ∧
    ((sessionNew envDecodeFail [] store0 cookieReq "test-sess").1).isNew = true ∧
    ((sessionNew envDecodeFail [] store0 cookieReq "test-sess").1).values = [] :=
  sessionNew_failure_is_safe envDecodeFail [] store0 cookieReq "test-sess"
    (GoError.loadErr "bad mac") rfl

/-- Counterexample for C7: with a cookie whose value decodes to "abc" but
whose row fetch fails, New returns a LoadError together with a session whose
identifier is "abc" — not empty, as the claim requires for every LoadError
return. -/
theorem sessionNew_load_error_nonempty_id :
    (sessionNew envScanFail [] store0 cookieReq "test-sess").2 =
      some (.loadErr "db down") ∧
    ((sessionNew envScanFail [] store0 cookieReq "test-sess").1).id = "abc" ∧
    ("abc" : String) ≠ "" := by
  refine ⟨rfl, rfl, by decide⟩

/-- Claim C7 as amended: the identifier is empty until the cookie value has
been successfully decoded — empty when no cookie is present and when the
cookie decode itself fails (that LoadError comes with the untouched fresh
session) — but once the cookie decode succeeds, the session carries the
decoded identifier, even when the record fetch or payload decode then fails
with a LoadError. -/
theorem sessionNew_id_tracks_cookie_decode (st : CQLStore) (n : String) :
    (∀ env db r, r.cookie n = none → ((sessionNew env db st r n).1).id = "") ∧
    (∀ env db r cv e, r.cookie n = some cv → env.decodeId n cv = .error e →
       sessionNew env db st r n = (freshSession st n, some (.loadErr e)) ∧
       (freshSession st n).id = "") ∧
    (∀ env db r cv i, r.cookie n = some cv → env.decodeId n cv = .ok i →
       ((sessionNew env db st r n).1).id = i) := by
  refine ⟨?_, ?_, ?_⟩
  · intro env db r hc
    unfold sessionNew
    rw [hc]
    rfl
  · intro env db r cv e hc hd
    unfold sessionNew
    rw [hc]
    dsimp only
    rw [hd]
    exact ⟨rfl, rfl⟩
  · intro env db r cv i hc hd
    unfold sessionNew
    rw [hc]
    dsimp only
    rw [hd]
    dsimp only
    split
    · rfl
    · split <;> rfl

/-- Witness for C7's amended theorem: no cookie gives an empty identifier; a
failing cookie decode gives the fresh session; a successful decode of "abc"
is carried on the session. -/
theorem sessionNew_id_tracks_cookie_decode_witness :
    ((sessionNew okEnv [] store0 emptyReq "test-sess").1).id = "" ∧
    (sessionNew envDecodeFail [] store0 cookieReq "test-sess" =
       (freshSession store0 "test-sess", some (.loadErr "bad mac")) ∧
     (freshSession store0 "test-sess").id = "") ∧
    ((sessionNew okEnv [] store0 cookieReq "test-sess").1).id = "abc" :=
  ⟨(sessionNew_id_tracks_cookie_decode store0 "test-sess").1 okEnv [] emptyReq rfl,
   (sessionNew_id_tracks_cookie_decode store0 "test-sess").2.1 envDecodeFail [] cookieReq
     "cookieval" "bad mac" rfl rfl,
   (sessionNew_id_tracks_cookie_decode store0 "test-sess").2.2 okEnv [] cookieReq
     "cookieval" "abc" rfl rfl⟩

end Cqlstore
